import Mathlib

/-!
Verification development for the SmartBand Edge API platform.

The repository's core is a CQRS-style heart-rate ingestion service:
a REST controller (`heart_rate_controller.py`) dispatching to a command
handler (record), query handler (history/statistics), and a repository over
a relational store, with a session/connection-pool boundary
(`database_configuration.py`).  The controller and the database
configuration are present in the source tree; the command/query handlers,
repository and entity/classifier modules are referenced but their files are
absent, so those parts are modelled from the specification and marked as
such in their doc comments.  Machine integers are modelled as `Int`/`Nat`
(Python integers are unbounded, so no wraparound is involved).
-/

namespace SmartBand

/-- Modelled from the spec: the status enumeration derived from a pulse
value; the spec fixes the band set {LOW, NORMAL, ELEVATED, HIGH} but leaves
the thresholds to the (absent) classifier module, so theorems quantify over
the classifier function. -/
inductive Status where
  | LOW
  | NORMAL
  | ELEVATED
  | HIGH
deriving DecidableEq, Repr

/-- Modelled from the spec: the string value of a status enum member
(`reading.status.value` in the controller); the entity module carrying the
enum is absent from the source tree, so the spec's band names are used. -/
def statusValue : Status → String
  | .LOW => "LOW"
  | .NORMAL => "NORMAL"
  | .ELEVATED => "ELEVATED"
  | .HIGH => "HIGH"

/-- Modelled from the spec: the persisted heart-rate reading entity with
surrogate id, device id, pulse, derived status and server-side timestamp
(the timestamp is abstracted to a `Nat` instant). -/
structure HeartRateReading where
  id : Nat
  smart_band_id : Int
  pulse : Int
  status : Status
  timestamp : Nat
deriving DecidableEq, Repr

/-- Modelled from the spec: the durable store reachable through the session
abstraction.  `rows` is the readings table in insertion order, `fail`
models a store-side/connectivity failure mode, `now` the server clock used
for the creation timestamp. -/
structure DB where
  rows : List HeartRateReading
  fail : Bool
  now : Nat
deriving Repr

/-- Well-formedness of the store: surrogate ids were assigned by the
store's generator, so every id is at most the current row count (a fresh
id `rows.length + 1` therefore collides with no existing row). -/
def DB.wf (db : DB) : Prop :=
  ∀ r ∈ db.rows, r.id ≤ db.rows.length

/-- Accumulator-style decimal digit run parser used to model Python's
`int()` on a string. -/
def parseDigits : List Char → Nat → Option Nat
  | [], acc => some acc
  | c :: rest, acc =>
      if c.isDigit then parseDigits rest (acc * 10 + (c.toNat - '0'.toNat))
      else none

/-- Models Python's built-in `int()` conversion on a string-typed pulse
field: an optional sign followed by a non-empty run of decimal digits
converts; anything else raises `ValueError`.  (Python also tolerates
surrounding whitespace and underscores; the claims only depend on the
convertible/non-convertible dichotomy and on the converted value, which
this model shares with `int()` on the inputs considered.) -/
def str_to_int (s : String) : Option Int :=
  match s.toList with
  | '-' :: rest =>
      if rest.isEmpty then none
      else (parseDigits rest 0).map (fun n => -(n : Int))
  | '+' :: rest =>
      if rest.isEmpty then none
      else (parseDigits rest 0).map (fun n => (n : Int))
  | cs =>
      if cs.isEmpty then none
      else (parseDigits cs 0).map (fun n => (n : Int))

/-- Embeds the `int(request.pulse)` coercion at controller line 112: the
DTO's pulse field (typed `integer|numeric-string` by the spec) either
converts to an integer or raises `ValueError` carrying the offending
input in its message. -/
def parse_pulse (raw : String) : Except String Int :=
  match str_to_int raw with
  | some n => Except.ok n
  | none => Except.error ("invalid literal for int() with base 10: '" ++ raw ++ "'")

/-- Embeds `RecordHeartRateCommand` (domain command built at controller
lines 110-113). -/
structure RecordHeartRateCommand where
  smart_band_id : Int
  pulse : Int
deriving DecidableEq, Repr

/-- Embeds `RecordHeartRateRequestDTO`: the POST body
`{smartBandId, pulse}`; the pulse arrives as the raw value handed to
`int()` (spec: `integer|numeric-string`), modelled as a string. -/
structure RecordHeartRateRequestDTO where
  smartBandId : Int
  pulse : String
deriving DecidableEq, Repr

/-- Embeds `RecordHeartRateResponseDTO` (controller lines 125-132). -/
structure RecordHeartRateResponseDTO where
  id : Nat
  smart_band_id : Int
  pulse : Int
  status : Status
  timestamp : Nat
  message : String
deriving DecidableEq, Repr

/-- Outcome of the record endpoint: HTTP 201 with the response DTO,
HTTP 400 (`HTTPException(400, detail)` from the `ValueError` arm at
controller line 135), or HTTP 500 (`HTTPException(500, detail)` from the
generic `Exception` arm at line 137). -/
inductive RecordResult where
  | success (body : RecordHeartRateResponseDTO)
  | clientError (detail : String)
  | serverError (detail : String)
deriving DecidableEq, Repr

/-- Embeds the `record_heart_rate` endpoint (controller lines 100-137),
parameterised over the injected dependencies exactly as the controller is:
`handle` is the injected `RecordHeartRateCommandHandler.handle` and
`find_by_id` is `Dependencies.get_repository().find_by_id`, both acting on
an abstract store state `σ`.  Control flow of the `try` block:
`int()` conversion failure is a `ValueError` caught as HTTP 400; a handler
failure is caught by the generic arm as HTTP 500 with the wrapped message;
a missing read-back raises `HTTPException(500, "Failed to retrieve created
reading")`, which the generic arm re-wraps (Starlette renders that
exception as `"500: <detail>"`), still HTTP 500. -/
def record_heart_rate {σ : Type}
    (handle : RecordHeartRateCommand → σ → Except String (Nat × σ))
    (find_by_id : Nat → σ → Option HeartRateReading)
    (req : RecordHeartRateRequestDTO) (s : σ) : RecordResult × σ :=
  match parse_pulse req.pulse with
  | Except.error e => (RecordResult.clientError e, s)
  | Except.ok p =>
    match handle ⟨req.smartBandId, p⟩ s with
    | Except.error e =>
        (RecordResult.serverError ("Internal server error: " ++ e), s)
    | Except.ok (reading_id, s') =>
      match find_by_id reading_id s' with
      | none =>
          (RecordResult.serverError
            "Internal server error: 500: Failed to retrieve created reading", s')
      | some r =>
          (RecordResult.success
            ⟨r.id, r.smart_band_id, r.pulse, r.status, r.timestamp,
             "Heart rate recorded successfully. Status: " ++ statusValue r.status⟩,
           s')

/-- Modelled from the spec: repository `save` — persists a new reading,
fails with `StorageError` on connectivity/constraint failure, returns the
store-assigned identity (a fresh positive surrogate id) with the
server-side UTC instant as timestamp. -/
def repo_save (db : DB) (sid : Int) (pulse : Int) (st : Status) :
    Except String (Nat × DB) :=
  if db.fail then Except.error "StorageError"
  else
    let rid := db.rows.length + 1
    Except.ok (rid, { db with rows := db.rows ++ [⟨rid, sid, pulse, st, db.now⟩] })

/-- Modelled from the spec: repository `findById` — returns the reading or
an explicit absent result, never an error for absence. -/
def repo_find_by_id (rid : Nat) (db : DB) : Option HeartRateReading :=
  db.rows.find? (fun r => r.id == rid)

/-- Modelled from the spec: the record command handler — builds a reading
via the classifier (status is derived from the pulse, never caller
supplied) and persists it via the repository, returning the new identity;
persistence failures propagate as `StorageError`. -/
def handler_handle (classify : Int → Status)
    (c : RecordHeartRateCommand) (db : DB) : Except String (Nat × DB) :=
  repo_save db c.smart_band_id c.pulse (classify c.pulse)

/-- The record endpoint instantiated with the spec-modelled handler and
repository over the store `DB`. -/
def record_heart_rate_db (classify : Int → Status)
    (req : RecordHeartRateRequestDTO) (db : DB) : RecordResult × DB :=
  record_heart_rate (handler_handle classify) repo_find_by_id req db

/-- Embeds `GetHeartRateHistoryQuery` (built at controller line 154). -/
structure GetHeartRateHistoryQuery where
  smart_band_id : Int
  limit : Int
deriving DecidableEq, Repr

/-- Embeds `HeartRateHistoryItemDTO` (controller lines 160-165). -/
structure HeartRateHistoryItemDTO where
  id : Nat
  pulse : Int
  status : Status
  timestamp : Nat
deriving DecidableEq, Repr

/-- Embeds `HeartRateHistoryResponseDTO` (controller lines 157-169). -/
structure HeartRateHistoryResponseDTO where
  smart_band_id : Int
  readings : List HeartRateHistoryItemDTO
  total : Nat
deriving DecidableEq, Repr

/-- Embeds the query object construction of the history endpoint:
FastAPI's `limit: int = 10` declaration substitutes 10 when the caller
supplies no limit, and the query is built from the path's device id and
that limit (controller lines 147 and 154). -/
def executed_query (smart_band_id : Int) (limit : Option Int) :
    GetHeartRateHistoryQuery :=
  ⟨smart_band_id, limit.getD 10⟩

/-- Embeds the `get_heart_rate_history` endpoint (controller lines
145-169), parameterised over the injected
`HeartRateQueryHandler.get_history`.  The endpoint has no exception
handling of its own, so a handler failure propagates; on success the
readings are mapped one-to-one into item DTOs and `total` is
`len(readings)` of the handler's list (line 168). -/
def get_heart_rate_history
    (get_history : GetHeartRateHistoryQuery → Except String (List HeartRateReading))
    (smart_band_id : Int) (limit : Option Int) :
    Except String HeartRateHistoryResponseDTO :=
  match get_history (executed_query smart_band_id limit) with
  | Except.error e => Except.error e
  | Except.ok readings =>
      Except.ok
        ⟨smart_band_id,
         readings.map (fun r => ⟨r.id, r.pulse, r.status, r.timestamp⟩),
         readings.length⟩

/-- Modelled from the spec: the query handler's `get_history` delegating
to repository `findByDevice` — up to `limit` most-recent readings for the
device, newest first (rows are appended in creation order, so newest-first
is the reversed filtered table), empty sequence when the device has no
readings. -/
def get_history_db (db : DB) (q : GetHeartRateHistoryQuery) :
    Except String (List HeartRateReading) :=
  Except.ok
    (((db.rows.filter (fun r => r.smart_band_id == q.smart_band_id)).reverse).take
      q.limit.toNat)

/-- Embeds `GetHeartRateStatisticsQuery` (built at controller line 185). -/
structure GetHeartRateStatisticsQuery where
  smart_band_id : Int
deriving DecidableEq, Repr

/-- Embeds `StatisticsResponseDTO` (controller line 188): the endpoint
re-packages the query handler's statistics dict verbatim via
`StatisticsResponseDTO(**stats)`.  The DTO module is absent from src and
the endpoint inspects none of the fields (the spec fixes them as
count/min/max/average of the device's pulses), so the payload is carried
as an abstract type. -/
structure StatisticsResponseDTO (τ : Type) where
  fields : τ
deriving DecidableEq, Repr

/-- Embeds the `get_heart_rate_statistics` endpoint (controller lines
177-188), parameterised over the injected
`HeartRateQueryHandler.get_statistics` exactly as the controller is.  The
endpoint has no exception handling of its own, so a handler failure
propagates unchanged; on success the handler's statistics are wrapped
into the response DTO. -/
def get_heart_rate_statistics {τ : Type}
    (get_statistics : GetHeartRateStatisticsQuery → Except String τ)
    (smart_band_id : Int) : Except String (StatisticsResponseDTO τ) :=
  (get_statistics ⟨smart_band_id⟩).map (fun s => ⟨s⟩)

/-- HTTP method of a maintenance request (the `/keepalive` route accepts
GET and HEAD, controller line 41). -/
inductive Method where
  | GET
  | HEAD
deriving DecidableEq, Repr

/-- Body of a `/keepalive` response (controller lines 53-75): the HEAD
branch returns only `{status}`; the GET branches add timestamp, database
state and message. -/
structure KeepaliveBody where
  status : String
  timestamp : Option Nat
  database : Option String
  message : Option String
deriving DecidableEq, Repr

/-- Embeds the `keepalive` endpoint (controller lines 42-75).  `probe`
is the outcome of `session.execute(text("SELECT 1")).scalar()` — a scalar
on success, the raised exception's message on failure.  The second
component counts database sessions acquired via `get_db_session`: the HEAD
branch returns before the `async for session in get_db_session()` line, so
it acquires none; each GET branch acquires exactly one.  The GET
exception arm converts the failure into a normal response whose message is
`str(e)` verbatim. -/
def keepalive (method : Method) (now : Nat) (probe : Except String Int) :
    KeepaliveBody × Nat :=
  match method with
  | Method.HEAD => (⟨"alive", none, none, none⟩, 0)
  | Method.GET =>
    match probe with
    | Except.ok db_status =>
        (⟨"alive", some now,
          some (if db_status == 1 then "connected" else "disconnected"),
          some "Keep-alive ping successful"⟩, 1)
    | Except.error e =>
        (⟨"error", some now, some "error", some e⟩, 1)

/-- Embeds the engine pool configuration record (database_configuration.py
lines 34-52). -/
structure PoolConfig where
  pool_size : Nat
  max_overflow : Nat
  pool_recycle : Nat
  pool_timeout : Nat
  pool_pre_ping : Bool
deriving DecidableEq, Repr

/-- Models Python's substring membership `pat in s` on character lists:
`pat` occurs contiguously somewhere in the list. -/
def contains_chars (pat : List Char) : List Char → Bool
  | [] => pat.isEmpty
  | c :: rest => pat.isPrefixOf (c :: rest) || contains_chars pat rest

/-- Embeds `is_pooler` (database_configuration.py line 30): Python's
`":6543/" in DATABASE_URL` substring test. -/
def is_pooler (url : String) : Bool :=
  contains_chars ":6543/".toList url.toList

/-- Embeds the pool sizing selection (database_configuration.py lines
35-52): a pooled upstream (Supabase pooler port) gets pool_size 3,
max_overflow 5, recycle 300 s; a direct connection gets pool_size 5,
max_overflow 10, recycle 1800 s; both use a 30 s checkout timeout and
pre-ping. -/
def pool_config (url : String) : PoolConfig :=
  if is_pooler url then ⟨3, 5, 300, 30, true⟩
  else ⟨5, 10, 1800, 30, true⟩

/-- Models Python's `str.startswith(pre)` on character lists. -/
def starts_with_chars (s pre : String) : Bool :=
  pre.toList.isPrefixOf s.toList

/-- Embeds the module-level DATABASE_URL validation (database_configuration.py
lines 14-27): absence raises `ValueError`, as does a scheme other than the
async `postgresql+psycopg://` driver (the error names the offending scheme,
computed as Python's `DATABASE_URL.split('://')[0] if '://' in DATABASE_URL
else 'invalid'`). -/
def check_database_url (env : Option String) : Except String String :=
  match env with
  | none =>
      Except.error
        "DATABASE_URL not found in environment variables. Please create a .env file with DATABASE_URL or set it as an environment variable."
  | some url =>
      if starts_with_chars url "postgresql+psycopg://" then Except.ok url
      else
        Except.error
          ("DATABASE_URL must use 'postgresql+psycopg://' driver for async support. Current: "
            ++ (if contains_chars "://".toList url.toList then
                  (url.splitOn "://").headD "invalid"
                else "invalid"))

/-- Embeds module initialization of database_configuration.py: the URL
check runs at import time, before the engine (and hence any session or
request handling) is created from it, so an engine exists only for a
present, correct-scheme URL.  The engine is abstracted to its pool
configuration and URL. -/
def startup (env : Option String) : Except String (PoolConfig × String) :=
  (check_database_url env).map (fun url => (pool_config url, url))

/-- Final state of one scoped session at the end of `get_db_session`
(database_configuration.py lines 85-97) combined with the unit of work
run inside it. -/
structure SessionTrace where
  committed : Bool
  rolledBack : Bool
  closed : Bool
deriving DecidableEq, Repr

/-- Embeds `get_db_session` (database_configuration.py lines 85-97): the
generator yields the session to the body; a body exception triggers
`session.rollback()` and re-raises; the `finally` clause — and the
enclosing `async with async_session_maker()` context — close the session
on every exit path, including when the rollback itself raises
(`rollback_fails`), in which case the rollback exception is the one that
propagates.  Result: the body's outcome (or the rollback failure), whether
a rollback completed, and whether the session was closed. -/
def get_db_session {α : Type} (body : Except String α) (rollback_fails : Bool) :
    Except String α × Bool × Bool :=
  match body with
  | Except.ok a => (Except.ok a, false, true)
  | Except.error e =>
      if rollback_fails then
        (Except.error "rollback failed", false, true)
      else
        (Except.error e, true, true)

/-- Modelled from the spec: the repository commits the unit of work on
success (the repository/handler modules that call `session.commit()` are
absent from the source tree); a failing operation commits nothing. -/
def commit_on_success {α : Type} (op : Except String α) :
    Except String (α × Bool) :=
  match op with
  | Except.ok a => Except.ok (a, true)
  | Except.error e => Except.error e

/-- One logical operation run under its own session: the operation body
(with the spec-modelled commit-on-success) executed inside the source's
`get_db_session` lifecycle, yielding the propagated outcome and the
session trace. -/
def run_unit_of_work {α : Type} (op : Except String α) (rollback_fails : Bool) :
    Except String α × SessionTrace :=
  match get_db_session (commit_on_success op) rollback_fails with
  | (Except.ok (a, c), rb, cl) => (Except.ok a, ⟨c, rb, cl⟩)
  | (Except.error e, rb, cl) => (Except.error e, ⟨false, rb, cl⟩)

/-!  Theorems.  -/

/-- A reading whose id collides with no row already in the table is found
by an id lookup after being appended. -/
theorem find_append_fresh (rows : List HeartRateReading) (x : HeartRateReading)
    (h : ∀ r ∈ rows, r.id ≠ x.id) :
    (rows ++ [x]).find? (fun r => r.id == x.id) = some x := by
  induction rows with
  | nil => simp [List.find?]
  | cons a t ih =>
    have ha : (a.id == x.id) = false := by
      simpa using h a (List.mem_cons_self a t)
    simp [ha, ih (fun r hr => h r (List.mem_cons_of_mem a hr))]

/-- On a well-formed, non-failing store, the spec-modelled save yields the
fresh id `rows.length + 1` and appends exactly the classified reading. -/
theorem handler_handle_ok (classify : Int → Status) (db : DB) (sid p : Int)
    (hfail : db.fail = false) :
    handler_handle classify ⟨sid, p⟩ db =
      Except.ok (db.rows.length + 1,
        { db with rows :=
            db.rows ++ [⟨db.rows.length + 1, sid, p, classify p, db.now⟩] }) := by
  simp [handler_handle, repo_save, hfail]

/-- On a well-formed, non-failing store, the full record endpoint produces
exactly the HTTP 201 body of the appended classified reading, and the new
store is the old one with that reading appended. -/
theorem record_db_eq (classify : Int → Status) (db : DB) (sid : Int)
    (raw : String) (p : Int)
    (hwf : DB.wf db) (hfail : db.fail = false)
    (hp : parse_pulse raw = Except.ok p) :
    record_heart_rate_db classify ⟨sid, raw⟩ db =
      (RecordResult.success
        ⟨db.rows.length + 1, sid, p, classify p, db.now,
         "Heart rate recorded successfully. Status: " ++ statusValue (classify p)⟩,
       { db with rows :=
           db.rows ++ [⟨db.rows.length + 1, sid, p, classify p, db.now⟩] }) := by
  have hfresh : ∀ r ∈ db.rows,
      r.id ≠ (⟨db.rows.length + 1, sid, p, classify p, db.now⟩ : HeartRateReading).id := by
    intro r hr
    have := hwf r hr
    simp only
    omega
  have hfind : repo_find_by_id (db.rows.length + 1)
      { db with rows := db.rows ++ [⟨db.rows.length + 1, sid, p, classify p, db.now⟩] } =
      some ⟨db.rows.length + 1, sid, p, classify p, db.now⟩ := by
    simpa [repo_find_by_id] using
      find_append_fresh db.rows ⟨db.rows.length + 1, sid, p, classify p, db.now⟩ hfresh
  simp only [record_heart_rate_db, record_heart_rate, hp,
    handler_handle_ok classify db sid p hfail, hfind]

/-- A fresh reading appended by a successful save is found again by an id
lookup on the post-command store. -/
theorem repo_find_after_save (classify : Int → Status) (db : DB)
    (sid p : Int) (hwf : DB.wf db) :
    repo_find_by_id (db.rows.length + 1)
      { db with rows := db.rows ++ [⟨db.rows.length + 1, sid, p, classify p, db.now⟩] } =
      some ⟨db.rows.length + 1, sid, p, classify p, db.now⟩ := by
  have hfresh : ∀ r ∈ db.rows,
      r.id ≠ (⟨db.rows.length + 1, sid, p, classify p, db.now⟩ : HeartRateReading).id := by
    intro r hr
    have := hwf r hr
    simp only
    omega
  simpa [repo_find_by_id] using
    find_append_fresh db.rows ⟨db.rows.length + 1, sid, p, classify p, db.now⟩ hfresh

/-- C1: Round-trip at the record endpoint.  For every classifier, every
well-formed store in which persistence succeeds, every device id `S` and
every pulse value convertible to the integer `p`, the endpoint returns
HTTP 201 and the reading fetched from the post-command store by the
response's own id has `smart_band_id = S`, `pulse = p` and
`status = classify p`; the response body's id, smartBandId, pulse, status
and timestamp fields are exactly those of that fetched entity. -/
theorem record_roundtrip (classify : Int → Status) (db : DB) (sid : Int)
    (raw : String) (p : Int)
    (hwf : DB.wf db) (hfail : db.fail = false)
    (hp : parse_pulse raw = Except.ok p) :
    ∃ (body : RecordHeartRateResponseDTO) (db' : DB) (r : HeartRateReading),
      record_heart_rate_db classify ⟨sid, raw⟩ db = (RecordResult.success body, db')
      ∧ repo_find_by_id body.id db' = some r
      ∧ r.smart_band_id = sid ∧ r.pulse = p ∧ r.status = classify p
      ∧ body.id = r.id ∧ body.smart_band_id = r.smart_band_id
      ∧ body.pulse = r.pulse ∧ body.status = r.status
      ∧ body.timestamp = r.timestamp := by
  refine ⟨⟨db.rows.length + 1, sid, p, classify p, db.now,
      "Heart rate recorded successfully. Status: " ++ statusValue (classify p)⟩,
    { db with rows := db.rows ++ [⟨db.rows.length + 1, sid, p, classify p, db.now⟩] },
    ⟨db.rows.length + 1, sid, p, classify p, db.now⟩,
    record_db_eq classify db sid raw p hwf hfail hp,
    repo_find_after_save classify db sid p hwf,
    rfl, rfl, rfl, rfl, rfl, rfl, rfl, rfl⟩

/-- Witness for C1 at a concrete input: device 1 records pulse "72" into
an empty store, and the round-trip holds. -/
theorem record_roundtrip_witness :
    ∃ (body : RecordHeartRateResponseDTO) (db' : DB) (r : HeartRateReading),
      record_heart_rate_db (fun _ => Status.NORMAL) ⟨1, "72"⟩ ⟨[], false, 100⟩ =
        (RecordResult.success body, db')
      ∧ repo_find_by_id body.id db' = some r
      ∧ r.smart_band_id = 1 ∧ r.pulse = 72
      ∧ r.status = (fun _ => Status.NORMAL) 72
      ∧ body.id = r.id ∧ body.smart_band_id = r.smart_band_id
      ∧ body.pulse = r.pulse ∧ body.status = r.status
      ∧ body.timestamp = r.timestamp :=
  record_roundtrip (fun _ => Status.NORMAL) ⟨[], false, 100⟩ 1 "72" 72
    (by intro r hr; simp at hr) rfl rfl

/-- C2: Error taxonomy of the record endpoint, over any injected handler
and repository.  A pulse that does not convert to an integer yields
HTTP 400 carrying the conversion error's detail (which names the offending
input); a handler/persistence failure yields HTTP 500 with the wrapped
message; and once the pulse has converted, no outcome whatsoever is a 400
— in particular a persistence failure is never reported as a validation
error. -/
theorem record_error_taxonomy {σ : Type}
    (handle : RecordHeartRateCommand → σ → Except String (Nat × σ))
    (find_by_id : Nat → σ → Option HeartRateReading)
    (req : RecordHeartRateRequestDTO) (s : σ) :
    (∀ e, parse_pulse req.pulse = Except.error e →
      (record_heart_rate handle find_by_id req s).fst = RecordResult.clientError e)
    ∧ (∀ p e, parse_pulse req.pulse = Except.ok p →
        handle ⟨req.smartBandId, p⟩ s = Except.error e →
        (record_heart_rate handle find_by_id req s).fst =
          RecordResult.serverError ("Internal server error: " ++ e))
    ∧ (∀ p, parse_pulse req.pulse = Except.ok p →
        ∀ d, (record_heart_rate handle find_by_id req s).fst ≠
          RecordResult.clientError d) := by
  refine ⟨?_, ?_, ?_⟩
  · intro e he
    simp [record_heart_rate, he]
  · intro p e hp hh
    simp [record_heart_rate, hp, hh]
  · intro p hp d
    cases hh : handle ⟨req.smartBandId, p⟩ s with
    | error e => simp [record_heart_rate, hp, hh]
    | ok v =>
      cases hf : find_by_id v.fst v.snd with
      | none => simp [record_heart_rate, hp, hh, hf]
      | some r => simp [record_heart_rate, hp, hh, hf]

/-- Witness for C2: the non-numeric pulse "abc" is rejected as a 400
naming the input, and a storage failure on pulse "72" surfaces as a
500. -/
theorem record_error_taxonomy_witness :
    (record_heart_rate (σ := Unit) (fun _ _ => Except.error "StorageError")
        (fun _ _ => none) ⟨1, "abc"⟩ ()).fst =
      RecordResult.clientError "invalid literal for int() with base 10: 'abc'"
    ∧ (record_heart_rate (σ := Unit) (fun _ _ => Except.error "StorageError")
        (fun _ _ => none) ⟨1, "72"⟩ ()).fst =
      RecordResult.serverError ("Internal server error: " ++ "StorageError") :=
  ⟨(record_error_taxonomy (σ := Unit) (fun _ _ => Except.error "StorageError")
      (fun _ _ => none) ⟨1, "abc"⟩ ()).1 _ rfl,
   (record_error_taxonomy (σ := Unit) (fun _ _ => Except.error "StorageError")
      (fun _ _ => none) ⟨1, "72"⟩ ()).2.1 72 "StorageError" rfl rfl⟩

/-- C5: Violation of the write-then-read invariant is an internal error.
If the command handler succeeds with identity `rid` but the repository
cannot read the created reading back (`find_by_id rid` is absent), the
record endpoint answers HTTP 500 — never a success and never a validation
error. -/
theorem record_vanished_internal_error {σ : Type}
    (handle : RecordHeartRateCommand → σ → Except String (Nat × σ))
    (find_by_id : Nat → σ → Option HeartRateReading)
    (req : RecordHeartRateRequestDTO) (s : σ) (p : Int) (rid : Nat) (s' : σ)
    (hp : parse_pulse req.pulse = Except.ok p)
    (hh : handle ⟨req.smartBandId, p⟩ s = Except.ok (rid, s'))
    (hf : find_by_id rid s' = none) :
    (record_heart_rate handle find_by_id req s).fst =
      RecordResult.serverError
        "Internal server error: 500: Failed to retrieve created reading" := by
  simp [record_heart_rate, hp, hh, hf]

/-- Witness for C5: a handler that reports identity 1 over a repository
that finds nothing drives the endpoint to the internal error. -/
theorem record_vanished_internal_error_witness :
    (record_heart_rate (σ := Unit) (fun _ _ => Except.ok (1, ()))
        (fun _ _ => none) ⟨1, "72"⟩ ()).fst =
      RecordResult.serverError
        "Internal server error: 500: Failed to retrieve created reading" :=
  record_vanished_internal_error (σ := Unit) (fun _ _ => Except.ok (1, ()))
    (fun _ _ => none) ⟨1, "72"⟩ () 72 1 () rfl rfl rfl

/-- C6: Default history limit.  When the caller supplies no limit, the
history endpoint builds its query with limit 10, and its observable
behaviour coincides with an explicit `limit=10` request, for any injected
query handler. -/
theorem history_default_limit
    (get_history : GetHeartRateHistoryQuery → Except String (List HeartRateReading))
    (sid : Int) :
    executed_query sid none = ⟨sid, 10⟩
    ∧ get_heart_rate_history get_history sid none =
        get_heart_rate_history get_history sid (some 10) :=
  ⟨rfl, rfl⟩

/-- C7: `total` counts the returned sequence.  For every injected query
handler, device id and limit, a successful history response's `total`
equals the length of its own `readings` list; and over the spec-modelled
store, a device with no readings gets `readings = []`, `total = 0` as a
normal (non-error) response. -/
theorem history_total_counts_readings
    (gh : GetHeartRateHistoryQuery → Except String (List HeartRateReading))
    (sid : Int) (limit : Option Int) (db : DB) :
    (∀ body, get_heart_rate_history gh sid limit = Except.ok body →
      body.total = body.readings.length)
    ∧ ((∀ r ∈ db.rows, r.smart_band_id ≠ sid) →
        get_heart_rate_history (get_history_db db) sid limit =
          Except.ok ⟨sid, [], 0⟩) := by
  constructor
  · intro body hbody
    cases hg : gh (executed_query sid limit) with
    | error e => simp [get_heart_rate_history, hg] at hbody
    | ok readings =>
      simp only [get_heart_rate_history, hg] at hbody
      cases hbody
      simp
  · intro h
    have hfilter : db.rows.filter (fun r => r.smart_band_id == sid) = [] := by
      refine List.filter_eq_nil_iff.mpr ?_
      intro a ha
      simpa using h a ha
    simp [get_heart_rate_history, get_history_db, hfilter]
    exact Or.inr fun a ha => h a ha

/-- Witness for C7: a store holding one reading for device 1 answers a
history request for device 999 with an empty list and total 0. -/
theorem history_total_counts_readings_witness :
    get_heart_rate_history
      (get_history_db ⟨[⟨1, 1, 72, Status.NORMAL, 100⟩], false, 200⟩) 999 none =
      Except.ok ⟨999, [], 0⟩ :=
  (history_total_counts_readings
      (get_history_db ⟨[⟨1, 1, 72, Status.NORMAL, 100⟩], false, 200⟩) 999 none
      ⟨[⟨1, 1, 72, Status.NORMAL, 100⟩], false, 200⟩).2
    (by intro r hr; simp at hr; simp [hr])

/-- C3: Session/unit-of-work discipline.  For every operation body and
whether or not the rollback itself fails, the session is closed on exit;
a successful body has its unit of work committed and its result
propagated; a failing body commits nothing, propagates an error, and
(when the rollback completes) is rolled back before the original
exception propagates. -/
theorem session_lifecycle {α : Type} (op : Except String α)
    (rollback_fails : Bool) :
    (run_unit_of_work op rollback_fails).snd.closed = true
    ∧ (∀ a, op = Except.ok a →
        run_unit_of_work op rollback_fails = (Except.ok a, ⟨true, false, true⟩))
    ∧ (∀ e, op = Except.error e →
        (run_unit_of_work op rollback_fails).snd.committed = false
        ∧ (∃ e', (run_unit_of_work op rollback_fails).fst = Except.error e')
        ∧ (rollback_fails = false →
            run_unit_of_work op rollback_fails =
              (Except.error e, ⟨false, true, true⟩))) := by
  refine ⟨?_, ?_, ?_⟩
  · cases op <;> cases rollback_fails <;>
      simp [run_unit_of_work, get_db_session, commit_on_success]
  · intro a ha
    subst ha
    simp [run_unit_of_work, get_db_session, commit_on_success]
  · intro e he
    subst he
    cases rollback_fails <;>
      simp [run_unit_of_work, get_db_session, commit_on_success]

/-- Witness for C3: a successful operation commits and closes; a failing
operation rolls back, closes and propagates its error. -/
theorem session_lifecycle_witness :
    run_unit_of_work (Except.ok 7) false = (Except.ok 7, ⟨true, false, true⟩)
    ∧ run_unit_of_work (α := Nat) (Except.error "StorageError") false =
        (Except.error "StorageError", ⟨false, true, true⟩) :=
  ⟨(session_lifecycle (Except.ok 7) false).2.1 7 rfl,
   ((session_lifecycle (α := Nat) (Except.error "StorageError") false).2.2
      "StorageError" rfl).2.2 rfl⟩

/-- C4: Pool sizing follows deployment topology.  A pooled upstream URL
(port 6543) selects pool_size 3 with a 300 s connection lifetime; a direct
URL selects pool_size 5 with 1800 s; every pooled configuration is
strictly smaller and shorter-lived than every direct one; and the
selection is a function of the externally configured DATABASE_URL (two
URLs can yield different configurations), not a single hard-coded
constant. -/
theorem pool_config_topology :
    (∀ u, is_pooler u = true → pool_config u = ⟨3, 5, 300, 30, true⟩)
    ∧ (∀ u, is_pooler u = false → pool_config u = ⟨5, 10, 1800, 30, true⟩)
    ∧ (∀ u v, is_pooler u = true → is_pooler v = false →
        (pool_config u).pool_size < (pool_config v).pool_size
        ∧ (pool_config u).pool_recycle < (pool_config v).pool_recycle)
    ∧ (∃ u v, pool_config u ≠ pool_config v) := by
  refine ⟨fun u hu => by simp [pool_config, hu],
    fun u hu => by simp [pool_config, hu],
    fun u v hu hv => by simp [pool_config, hu, hv],
    ⟨"postgresql+psycopg://u:p@h:6543/db", "postgresql+psycopg://u:p@h:5432/db",
      by decide⟩⟩

/-- Witness for C4: the Supabase pooler URL gets the small/short
configuration and is strictly below the direct URL's sizing. -/
theorem pool_config_topology_witness :
    pool_config "postgresql+psycopg://u:p@h:6543/db" = ⟨3, 5, 300, 30, true⟩
    ∧ (pool_config "postgresql+psycopg://u:p@h:6543/db").pool_size <
        (pool_config "postgresql+psycopg://u:p@h:5432/db").pool_size
    ∧ (pool_config "postgresql+psycopg://u:p@h:6543/db").pool_recycle <
        (pool_config "postgresql+psycopg://u:p@h:5432/db").pool_recycle :=
  ⟨pool_config_topology.1 "postgresql+psycopg://u:p@h:6543/db" rfl,
   (pool_config_topology.2.2.1 "postgresql+psycopg://u:p@h:6543/db"
      "postgresql+psycopg://u:p@h:5432/db" rfl rfl).1,
   (pool_config_topology.2.2.1 "postgresql+psycopg://u:p@h:6543/db"
      "postgresql+psycopg://u:p@h:5432/db" rfl rfl).2⟩

/-- C8: Fail-fast startup configuration.  An absent DATABASE_URL is a
startup error; a present URL with any scheme other than the async
`postgresql+psycopg://` driver is a startup error; and whenever module
initialization succeeds (producing an engine), the environment did supply
a URL with the expected scheme and the engine was built from exactly that
URL — no runtime operation ever runs under a missing or wrong-scheme
connection string. -/
theorem startup_fail_fast :
    (∃ e, check_database_url none = Except.error e)
    ∧ (∀ url, starts_with_chars url "postgresql+psycopg://" = false →
        ∃ e, check_database_url (some url) = Except.error e)
    ∧ (∀ env engine, startup env = Except.ok engine →
        ∃ url, env = some url
          ∧ starts_with_chars url "postgresql+psycopg://" = true
          ∧ engine = (pool_config url, url)) := by
  refine ⟨⟨_, rfl⟩, ?_, ?_⟩
  · intro url hurl
    simp [check_database_url, hurl]
  · intro env engine hok
    cases env with
    | none => simp [startup, check_database_url, Except.map] at hok
    | some url =>
      cases hurl : starts_with_chars url "postgresql+psycopg://" with
      | false => simp [startup, check_database_url, hurl, Except.map] at hok
      | true =>
        simp [startup, check_database_url, hurl, Except.map] at hok
        subst hok
        exact ⟨url, rfl, hurl, rfl⟩

/-- Witness for C8: the sync-driver URL `postgresql://…` is rejected at
startup, and the good URL's successful startup certifies its scheme. -/
theorem startup_fail_fast_witness :
    (∃ e, check_database_url (some "postgresql://u:p@h:5432/db") = Except.error e)
    ∧ (∃ url, (some "postgresql+psycopg://u:p@h:5432/db") = some url
        ∧ starts_with_chars url "postgresql+psycopg://" = true
        ∧ (pool_config "postgresql+psycopg://u:p@h:5432/db",
           "postgresql+psycopg://u:p@h:5432/db") = (pool_config url, url)) :=
  ⟨startup_fail_fast.2.1 "postgresql://u:p@h:5432/db" rfl,
   startup_fail_fast.2.2 (some "postgresql+psycopg://u:p@h:5432/db")
     (pool_config "postgresql+psycopg://u:p@h:5432/db",
      "postgresql+psycopg://u:p@h:5432/db") rfl⟩

/-- C9: The keep-alive probe is the only error-to-success conversion.
A failing GET probe yields a normal keep-alive body with status "error"
whose message is the underlying cause verbatim; whereas every other core
operation surfaces or propagates its failure: the record endpoint turns a
handler failure into an HTTP 500 error, and the history and statistics
endpoints propagate a query-handler failure unchanged — none swallows it
into a success. -/
theorem keepalive_sole_error_swallow {σ τ : Type}
    (handle : RecordHeartRateCommand → σ → Except String (Nat × σ))
    (find_by_id : Nat → σ → Option HeartRateReading)
    (req : RecordHeartRateRequestDTO) (s : σ)
    (gh : GetHeartRateHistoryQuery → Except String (List HeartRateReading))
    (gs : GetHeartRateStatisticsQuery → Except String τ)
    (sid : Int) (limit : Option Int) (now : Nat) :
    (∀ e, (keepalive Method.GET now (Except.error e)).fst =
        ⟨"error", some now, some "error", some e⟩)
    ∧ (∀ p e, parse_pulse req.pulse = Except.ok p →
        handle ⟨req.smartBandId, p⟩ s = Except.error e →
        (record_heart_rate handle find_by_id req s).fst =
          RecordResult.serverError ("Internal server error: " ++ e))
    ∧ (∀ e, gh (executed_query sid limit) = Except.error e →
        get_heart_rate_history gh sid limit = Except.error e)
    ∧ (∀ e, gs ⟨sid⟩ = Except.error e →
        get_heart_rate_statistics gs sid = Except.error e) := by
  refine ⟨fun e => rfl, ?_, ?_, ?_⟩
  · intro p e hp hh
    simp [record_heart_rate, hp, hh]
  · intro e hg
    simp [get_heart_rate_history, hg]
  · intro e hg
    simp [get_heart_rate_statistics, hg, Except.map]

/-- Witness for C9: a probe failing with "connection refused" is reported
as a degraded keep-alive body carrying that exact message, while the same
failure in the record, history and statistics paths surfaces as an
error. -/
theorem keepalive_sole_error_swallow_witness :
    (keepalive Method.GET 5 (Except.error "connection refused")).fst =
      ⟨"error", some 5, some "error", some "connection refused"⟩
    ∧ (record_heart_rate (σ := Unit) (fun _ _ => Except.error "connection refused")
        (fun _ _ => none) ⟨1, "72"⟩ ()).fst =
      RecordResult.serverError ("Internal server error: " ++ "connection refused")
    ∧ get_heart_rate_history (fun _ => Except.error "connection refused") 1 none =
      Except.error "connection refused"
    ∧ get_heart_rate_statistics (τ := Nat)
        (fun _ => Except.error "connection refused") 1 =
      Except.error "connection refused" :=
  ⟨(keepalive_sole_error_swallow (σ := Unit) (τ := Nat)
      (fun _ _ => Except.error "connection refused") (fun _ _ => none)
      ⟨1, "72"⟩ () (fun _ => Except.error "connection refused")
      (fun _ => Except.error "connection refused") 1 none 5).1
      "connection refused",
   (keepalive_sole_error_swallow (σ := Unit) (τ := Nat)
      (fun _ _ => Except.error "connection refused") (fun _ _ => none)
      ⟨1, "72"⟩ () (fun _ => Except.error "connection refused")
      (fun _ => Except.error "connection refused") 1 none 5).2.1
      72 "connection refused" rfl rfl,
   (keepalive_sole_error_swallow (σ := Unit) (τ := Nat)
      (fun _ _ => Except.error "connection refused") (fun _ _ => none)
      ⟨1, "72"⟩ () (fun _ => Except.error "connection refused")
      (fun _ => Except.error "connection refused") 1 none 5).2.2.1
      "connection refused" rfl,
   (keepalive_sole_error_swallow (σ := Unit) (τ := Nat)
      (fun _ _ => Except.error "connection refused") (fun _ _ => none)
      ⟨1, "72"⟩ () (fun _ => Except.error "connection refused")
      (fun _ => Except.error "connection refused") 1 none 5).2.2.2
      "connection refused" rfl⟩

/-- C10: HEAD keep-alive touches nothing.  For every server clock and
every possible probe outcome, a HEAD request to `/keepalive` returns the
bare `{status: "alive"}` body and acquires zero database sessions — the
response does not depend on the store at all. -/
theorem keepalive_head_touches_nothing (now : Nat) (probe : Except String Int) :
    keepalive Method.HEAD now probe = (⟨"alive", none, none, none⟩, 0) :=
  rfl

end SmartBand
